import Mathlib

/-!
Shallow embedding of the win-notification-server core (Rust) in Lean 4.

The embedding covers:
- the XML escaping and toast-template rendering of
  src/notifications/basic.rs (escape_xml, BasicNotification::prepare_xml);
- the manager send path of src/services/manager.rs
  (send_typed_notification, setup_notification_handlers) with tag
  generation (uuid::Uuid::new_v4) modelled as an explicit stream of
  identifier strings indexed by a counter;
- the event handlers (Activated / Dismissed / Failed) of both
  src/services/manager.rs and src/main.rs, producing a list of abstract
  collaborator effects (process launch, clipboard write, folder open, log);
- the Basic-authentication gate of src/utils/auth.rs
  (validate_auth_header, is_localhost) including base64 decoding and
  UTF-8 validation;
- the request ingestion of src/handlers/web.rs (handle_multipart and the
  URL-encoded non-multipart branch) and the serde-derived deserializers
  of the two NotificationRequest structs (src/notifications/types.rs and
  src/main.rs) over a small JSON-like document type;
- the standalone send path of src/main.rs (send_notification,
  send_basic_notification, send_xml_notification).

External platform calls (XmlDocument::LoadXml, ToastNotification creation,
ToastNotifier::Show, file writes) are modelled as succeeding; the
filesystem is an explicit list of existing paths where the code queries
existence.  Randomness (uuid::Uuid::new_v4) is an explicit stream of
strings.  Event traces record the observable steps of the send path.
-/

set_option maxRecDepth 10000

/-! ## Rust string primitives -/

/-- Model of Rust `str::replace` with a string pattern, via explicit fuel
(fuel is the length of the subject, enough because every step consumes at
least one character).  Replaces non-overlapping occurrences left to right. -/
def replaceFuel (fuel : Nat) (pat rep : List Char) : List Char → List Char
  | [] => []
  | c :: rest =>
    match fuel with
    | 0 => c :: rest
    | f + 1 =>
      if pat ≠ [] ∧ pat.isPrefixOf (c :: rest) then
        rep ++ replaceFuel f pat rep ((c :: rest).drop pat.length)
      else
        c :: replaceFuel f pat rep rest

/-- Rust `str::replace(pat, rep)` on the underlying character lists. -/
def rustReplace (s pat rep : List Char) : List Char :=
  replaceFuel s.length pat rep s

/-- Model of Rust `str::replace` with a *char* pattern: every occurrence of
the character is replaced by the replacement string. -/
def replaceChar (s : List Char) (c : Char) (rep : List Char) : List Char :=
  s.flatMap (fun x => if x = c then rep else [x])

/-- Model of Rust `str::starts_with`. -/
def rustStartsWith (s p : String) : Bool :=
  p.data.isPrefixOf s.data

/-- `escape_xml` from src/notifications/basic.rs: chained char-pattern
replaces, ampersand first. -/
def escape_xml (s : String) : String :=
  String.mk
    (replaceChar
      (replaceChar
        (replaceChar
          (replaceChar s.data '&' "&amp;".data)
          '"' "&quot;".data)
        '<' "&lt;".data)
      '>' "&gt;".data)

/-- The per-character action of the composed escaping chain. -/
def escChar (c : Char) : List Char :=
  if c = '&' then "&amp;".data
  else if c = '"' then "&quot;".data
  else if c = '<' then "&lt;".data
  else if c = '>' then "&gt;".data
  else [c]

/-- Scanner deciding that a character list has no unescaped markup-reserved
character: no `<`, `>` or `"` at all, and every `&` begins one of the four
entities `&amp;` `&quot;` `&lt;` `&gt;`. -/
def okEscaped : List Char → Bool
  | [] => true
  | c :: rest =>
    if c = '<' ∨ c = '>' ∨ c = '"' then false
    else if c = '&' then
      ("amp;".data.isPrefixOf rest || "quot;".data.isPrefixOf rest ||
        "lt;".data.isPrefixOf rest || "gt;".data.isPrefixOf rest)
        && okEscaped rest
    else okEscaped rest

/-! ## Data model (src/notifications/types.rs, src/notifications/basic.rs) -/

/-- `NotificationKind` from src/notifications/types.rs (single variant today). -/
inductive NotificationKind where
  | basic
deriving DecidableEq, Repr

/-- `NotificationRequest` from src/notifications/types.rs. -/
structure NotificationRequest where
  title : String
  message : String
  notification_type : NotificationKind
  image_path : Option String
  file_paths : Option (List String)
  callback_command : Option String
deriving DecidableEq, Repr

/-- `NotificationData` from src/notifications/types.rs (CallbackMetadata). -/
structure NotificationData where
  callback_command : Option String
  message : String
  image_path : Option String
  file_paths : Option (List String)
deriving DecidableEq, Repr

/-- `BasicNotification` from src/notifications/basic.rs. -/
structure BasicNotification where
  title : String
  message : String
  image_path : Option String
  file_paths : Option (List String)
  callback_command : Option String
deriving DecidableEq, Repr

/-- `BasicNotification::from(NotificationRequest)` (src/notifications/basic.rs). -/
def basicFromRequest (r : NotificationRequest) : BasicNotification :=
  { title := r.title, message := r.message, image_path := r.image_path
    file_paths := r.file_paths, callback_command := r.callback_command }

/-- `get_callback_data` from src/notifications/basic.rs. -/
def get_callback_data (n : BasicNotification) : NotificationData :=
  { callback_command := n.callback_command, message := n.message
    image_path := n.image_path, file_paths := n.file_paths }

/-- The `TOAST_TEMPLATE` constant of src/notifications/basic.rs. -/
def TOAST_TEMPLATE : String :=
  "<toast launch=\"action=mainContent&amp;tag={tag}\" activationType=\"foreground\" duration=\"long\">\n    <visual>\n        <binding template=\"ToastGeneric\">\n            {image}\n            <text>{title}</text>\n            <text>{message}</text>\n        </binding>\n    </visual>\n    <audio src=\"ms-winsoundevent:Notification.Default\"/>\n</toast>"

/-- The tag format `format!("notification_{}", uuid::Uuid::new_v4())`; the
uuid stream `uuids` models successive draws of `Uuid::new_v4`, `k` is the
index of the draw. -/
def newTag (uuids : Nat → String) (k : Nat) : String :=
  "notification_" ++ uuids k

/-- The `<image placement="hero" .../>` element built by `prepare_xml` when a
file-path image is present (src/notifications/basic.rs). -/
def heroImageXml (p : String) : String :=
  "<image placement=\"hero\" src=\"" ++ p ++ "\" />"

/-- The template substitution performed by `prepare_xml`
(src/notifications/basic.rs): tag, then escaped title, then escaped
message, then the image element. -/
def toastXml (tag : String) (n : BasicNotification) (image_xml : String) : String :=
  String.mk
    (rustReplace
      (rustReplace
        (rustReplace
          (rustReplace TOAST_TEMPLATE.data "{tag}".data tag.data)
          "{title}".data (escape_xml n.title).data)
        "{message}".data (escape_xml n.message).data)
      "{image}".data image_xml.data)

/-! ## Manager send path (src/services/manager.rs) -/

/-- Observable steps of the send path, in program order. -/
inductive Ev where
  | genTag (tag : String)
  | setTagCall (tag : String)
  | insert (tag : String)
  | registerHandlers (tag : String)
  | showCall
deriving DecidableEq, Repr

/-- A `ToastNotification`: the XML it was created from and its current tag. -/
structure ToastNotification where
  xml : String
  tag : String
deriving DecidableEq, Repr

/-- Result of `prepare_xml` (src/notifications/basic.rs), with the uuid
counter threaded through and the trace of tag generations.  `fs` is the
set of existing files consulted by `Path::exists`. -/
structure PrepOut where
  result : Except String String
  counter : Nat
  trace : List Ev
deriving Repr

/-- `BasicNotification::prepare_xml` (src/notifications/basic.rs): generate
a tag, verify an existing file when a file-path image is given, then
substitute into the template. -/
def prepare_xml (uuids : Nat → String) (k : Nat) (fs : List String)
    (n : BasicNotification) : PrepOut :=
  let tag := newTag uuids k
  match n.image_path with
  | some img_path =>
    if fs.contains img_path then
      { result := .ok (toastXml tag n (heroImageXml img_path))
        counter := k + 1, trace := [.genTag tag] }
    else
      { result := .error "Image file not found", counter := k + 1
        trace := [.genTag tag] }
  | none =>
    { result := .ok (toastXml tag n ""), counter := k + 1
      trace := [.genTag tag] }

/-- `create_notification` (src/notifications/basic.rs): loads the XML and
sets a freshly generated tag on the toast (the platform calls are modelled
as succeeding). -/
def create_notification (uuids : Nat → String) (k : Nat) (xml : String) :
    ToastNotification × Nat × List Ev :=
  let tag := newTag uuids k
  ({ xml := xml, tag := tag }, k + 1, [.genTag tag, .setTagCall tag])

/-- Outcome of `send_typed_notification`: result, uuid counter, event
trace, the CorrelationStore contents (latest insert first), the toast that
was built, and the tag the event handlers were registered with. -/
structure SendOut where
  result : Except String Unit
  counter : Nat
  trace : List Ev
  store : List (String × NotificationData)
  toast : Option ToastNotification
  handlersTag : Option String
deriving Repr

/-- `NotificationManager::send_typed_notification` (src/services/manager.rs):
prepare the XML, create the toast, generate one more tag, overwrite the
toast's tag with it, insert the callback metadata into the store under it,
register the event handlers with it, then call `Show`. -/
def send_typed_notification (uuids : Nat → String) (k : Nat) (fs : List String)
    (store0 : List (String × NotificationData)) (notifierPresent : Bool)
    (n : BasicNotification) : SendOut :=
  let p := prepare_xml uuids k fs n
  match p.result with
  | .error e =>
    { result := .error e, counter := p.counter, trace := p.trace
      store := store0, toast := none, handlersTag := none }
  | .ok xml =>
    let c := create_notification uuids p.counter xml
    let data := get_callback_data n
    let tag := newTag uuids c.2.1
    let toast : ToastNotification := { c.1 with tag := tag }
    let store1 := (tag, data) :: store0
    let trace := p.trace ++ c.2.2 ++
      [.genTag tag, .setTagCall tag, .insert tag, .registerHandlers tag]
    if notifierPresent then
      { result := .ok (), counter := c.2.1 + 1, trace := trace ++ [.showCall]
        store := store1, toast := some toast, handlersTag := some tag }
    else
      { result := .error "Toast notifier not initialized", counter := c.2.1 + 1
        trace := trace, store := store1, toast := some toast
        handlersTag := some tag }

/-- The tag generations recorded in a trace. -/
def genTags (tr : List Ev) : List String :=
  tr.filterMap (fun e => match e with | .genTag t => some t | _ => none)

/-- Lookup in the store (HashMap modelled as an association list where the
most recent insert is first). -/
def lookupStore {α : Type} (s : List (String × α)) (tag : String) : Option α :=
  (s.find? (fun kv => kv.1 == tag)).map (fun kv => kv.2)

/-! ## Event handlers and side effects -/

/-- Calls to external collaborators made by the event handlers.
`launch` is `std::process::Command::new(prog).args(args).spawn()` for the
callback command; `openFolder` is the folder-opener collaborator
(implemented in the code as an `explorer <dir>` invocation); `clipboard`
is `ClipboardService::set_text` / `set_clipboard_text`; `log` is a
`log::info!` / `log::error!` call. -/
inductive Effect where
  | launch (prog : String) (args : List String)
  | clipboard (text : String)
  | openFolder (path : String)
  | log (msg : String)
deriving DecidableEq, Repr

/-- Whether an effect is an actual side effect (anything but logging). -/
def Effect.isSideEffect : Effect → Bool
  | .log _ => false
  | _ => true

/-- Path separator on Windows paths (`/` or `\`). -/
def isSep (c : Char) : Bool := c = '/' || c = '\\'

/-- Index of the last separator of a character list, if any. -/
def lastSepIdx (l : List Char) : Option Nat :=
  match l.reverse.findIdx? isSep with
  | some j => some (l.length - 1 - j)
  | none => none

/-- Simplified model of `std::path::Path::parent`: the prefix before the
last separator; `Some ""` for a separator-free non-empty relative path;
`none` for the empty path.  (Root-path corner cases such as `/` or `C:\`
are not modelled; no claim depends on them.) -/
def pathParent (p : String) : Option String :=
  if p.data = [] then none
  else
    match lastSepIdx p.data with
    | none => some ""
    | some i => some (String.mk (p.data.take i))

/-- The directory-selection logic of the manager Activated handler
(src/services/manager.rs): the image's directory if an image path is
stored, else the first attachment's directory, else nothing. -/
def directoryToOpen (data : NotificationData) : Option String :=
  match data.image_path with
  | some ip => pathParent ip
  | none =>
    match data.file_paths with
    | some fps =>
      match fps with
      | [] => none
      | f :: _ => pathParent f
    | none => none

/-- The Activated handler registered by
`NotificationManager::setup_notification_handlers` (src/services/manager.rs),
as the list of collaborator calls it makes when fired with the captured
`tag` against the store contents `notifications`. -/
def activated_handler (notifications : List (String × NotificationData))
    (tag : String) : List Effect :=
  .log "Notification clicked (Activated event)" ::
  match lookupStore notifications tag with
  | none => []
  | some data =>
    (match data.callback_command with
     | some cmd =>
       [.log ("Executing callback command for click: " ++ cmd),
        .launch "cmd" ["/C", cmd]]
     | none => [.clipboard data.message])
    ++
    (match directoryToOpen data with
     | some dir => [.log ("Opening directory: " ++ dir), .openFolder dir]
     | none => [])

/-- `ToastDismissalReason`, with `other` standing for any value hitting the
wildcard arm. -/
inductive ToastDismissalReason where
  | userCanceled
  | timedOut
  | applicationHidden
  | other
deriving DecidableEq, Repr

/-- The Dismissed handler registered by
`NotificationManager::setup_notification_handlers` (src/services/manager.rs):
pure logging for every reason. -/
def dismissed_handler : ToastDismissalReason → List Effect
  | .userCanceled => [.log "Notification dismissed by user - no action taken"]
  | .timedOut => [.log "Notification timed out"]
  | .applicationHidden => [.log "Notification hidden by application"]
  | .other => [.log "Notification dismissed with unknown reason"]

/-- The Failed handler registered by
`NotificationManager::setup_notification_handlers` (src/services/manager.rs). -/
def failed_handler (tag : String) : List Effect :=
  [.log ("Notification failed: " ++ tag)]

/-! ## The standalone variant of src/main.rs -/

/-- `NotificationRequest` from src/main.rs: no image path, but an optional
raw XML payload and optional inline base64 image data. -/
structure MainNotificationRequest where
  title : String
  message : String
  xml_payload : Option String
  image_data : Option String
  callback_command : Option String
deriving DecidableEq, Repr

/-- `NotificationData` from src/main.rs. -/
structure MainNotificationData where
  callback_command : Option String
  message : String
deriving DecidableEq, Repr

/-- The `TOAST_TEMPLATE` constant of src/main.rs (image element after the
text elements). -/
def MAIN_TOAST_TEMPLATE : String :=
  "<toast launch=\"action=mainContent&amp;tag={tag}\" activationType=\"foreground\" duration=\"long\">\n    <visual>\n        <binding template=\"ToastGeneric\">\n            <text>{title}</text>\n            <text>{message}</text>\n            {image}\n        </binding>\n    </visual>\n    <audio src=\"ms-winsoundevent:Notification.Default\"/>\n</toast>"

/-- The inline escaping of src/main.rs `send_basic_notification`
(string-pattern replaces, same order as basic.rs). -/
def main_escape (s : String) : String :=
  String.mk
    (rustReplace
      (rustReplace
        (rustReplace
          (rustReplace s.data "&".data "&amp;".data)
          "\"".data "&quot;".data)
        "<".data "&lt;".data)
      ">".data "&gt;".data)

/-- The template substitution of src/main.rs `send_basic_notification`,
embedding inline image data as a base64 data URI with no existence check. -/
def main_toast_xml (tag : String) (req : MainNotificationRequest) : String :=
  String.mk
    (rustReplace
      (rustReplace
        (rustReplace
          (rustReplace MAIN_TOAST_TEMPLATE.data "{tag}".data tag.data)
          "{title}".data (main_escape req.title).data)
        "{message}".data (main_escape req.message).data)
      "{image}".data
      (match req.image_data with
       | some img =>
         ("<image placement=\"appLogoOverride\" src=\"data:image/png;base64,"
           ++ img ++ "\"/>").data
       | none => []))

/-- The Activated handler registered by src/main.rs
`send_xml_notification`. -/
def main_activated_handler (notifications : List (String × MainNotificationData))
    (tag : String) : List Effect :=
  .log "Notification clicked (Activated event)" ::
  match lookupStore notifications tag with
  | none => []
  | some data =>
    match data.callback_command with
    | some cmd =>
      [.log ("Executing callback command for click: " ++ cmd),
       .launch "cmd" ["/C", cmd]]
    | none => [.clipboard data.message]

/-- The Dismissed handler registered by src/main.rs `send_xml_notification`:
for a user-cancelled dismissal it re-runs the Activated side effect
(callback launch or clipboard write); for every other reason it only logs. -/
def main_dismissed_handler (notifications : List (String × MainNotificationData))
    (tag : String) : ToastDismissalReason → List Effect
  | .userCanceled =>
    .log "Notification dismissed from action center (UserCanceled)" ::
    (match lookupStore notifications tag with
     | none => []
     | some data =>
       match data.callback_command with
       | some cmd =>
         [.log ("Executing callback command for action center dismissal: " ++ cmd),
          .launch "cmd" ["/C", cmd]]
       | none => [.clipboard data.message])
  | .timedOut => [.log "Notification timed out (TimedOut)"]
  | .applicationHidden => [.log "Notification hidden by application (ApplicationHidden)"]
  | .other => [.log "Notification dismissed with unknown reason"]

/-- Outcome of the src/main.rs send path. -/
structure MainSendOut where
  result : Except String Unit
  counter : Nat
  trace : List Ev
  store : List (String × MainNotificationData)
  shownXml : Option String
deriving Repr

/-- `send_xml_notification` (src/main.rs): loads the XML, generates a tag,
sets it on the toast, inserts the metadata under it, registers the three
handlers, then calls `Show`. -/
def send_xml_notification (uuids : Nat → String) (k : Nat)
    (store0 : List (String × MainNotificationData)) (notifierPresent : Bool)
    (xml : String) (callback : Option String) (message : String) : MainSendOut :=
  let tag := newTag uuids k
  let store1 := (tag, { callback_command := callback, message := message }) :: store0
  if notifierPresent then
    { result := .ok (), counter := k + 1
      trace := [.genTag tag, .setTagCall tag, .insert tag,
        .registerHandlers tag, .showCall]
      store := store1, shownXml := some xml }
  else
    { result := .error "Toast notifier not initialized", counter := k + 1
      trace := [.genTag tag, .setTagCall tag, .insert tag, .registerHandlers tag]
      store := store1, shownXml := none }

/-- `send_basic_notification` (src/main.rs): generates its own tag, renders
the template (inline image data embedded without any filesystem check),
inserts the metadata under that tag, then delegates to
`send_xml_notification`, which repeats tag generation and insertion. -/
def send_basic_notification (uuids : Nat → String) (k : Nat)
    (store0 : List (String × MainNotificationData)) (notifierPresent : Bool)
    (req : MainNotificationRequest) : MainSendOut :=
  let tag := newTag uuids k
  let xml := main_toast_xml tag req
  let store1 := (tag, { callback_command := req.callback_command
                        message := req.message }) :: store0
  let out := send_xml_notification uuids (k + 1) store1 notifierPresent xml
    req.callback_command req.message
  { out with trace := .genTag tag :: .insert tag :: out.trace }

/-- `NotificationManager::send_notification` (src/main.rs). -/
def main_send_notification (uuids : Nat → String) (k : Nat)
    (store0 : List (String × MainNotificationData)) (notifierPresent : Bool)
    (isRegistered : Bool) (req : MainNotificationRequest) : MainSendOut :=
  if !isRegistered then
    { result := .error "Notification system not properly registered"
      counter := k, trace := [], store := store0, shownXml := none }
  else
    match req.xml_payload with
    | some xml =>
      send_xml_notification uuids k store0 notifierPresent xml
        req.callback_command req.message
    | none => send_basic_notification uuids k store0 notifierPresent req

/-! ## Authentication gate (src/utils/auth.rs) -/

/-- Strict UTF-8 validation/decoding, as performed by Rust
`String::from_utf8`: rejects overlong encodings, surrogates and values
above U+10FFFF. -/
def utf8Decode : List Nat → Option (List Char)
  | [] => some []
  | b :: rest =>
    if b < 0x80 then (utf8Decode rest).map (fun cs => Char.ofNat b :: cs)
    else if b < 0xC2 then none
    else if b ≤ 0xDF then
      match rest with
      | c1 :: rest2 =>
        if 0x80 ≤ c1 ∧ c1 ≤ 0xBF then
          (utf8Decode rest2).map
            (fun cs => Char.ofNat ((b - 0xC0) * 0x40 + (c1 - 0x80)) :: cs)
        else none
      | [] => none
    else if b ≤ 0xEF then
      match rest with
      | c1 :: c2 :: rest2 =>
        if (if b = 0xE0 then 0xA0 else 0x80) ≤ c1 ∧
            c1 ≤ (if b = 0xED then 0x9F else 0xBF) ∧
            0x80 ≤ c2 ∧ c2 ≤ 0xBF then
          (utf8Decode rest2).map
            (fun cs =>
              Char.ofNat ((b - 0xE0) * 0x1000 + (c1 - 0x80) * 0x40 + (c2 - 0x80)) :: cs)
        else none
      | _ => none
    else if b ≤ 0xF4 then
      match rest with
      | c1 :: c2 :: c3 :: rest2 =>
        if (if b = 0xF0 then 0x90 else 0x80) ≤ c1 ∧
            c1 ≤ (if b = 0xF4 then 0x8F else 0xBF) ∧
            0x80 ≤ c2 ∧ c2 ≤ 0xBF ∧ 0x80 ≤ c3 ∧ c3 ≤ 0xBF then
          (utf8Decode rest2).map
            (fun cs =>
              Char.ofNat ((b - 0xF0) * 0x40000 + (c1 - 0x80) * 0x1000 +
                (c2 - 0x80) * 0x40 + (c3 - 0x80)) :: cs)
        else none
      | _ => none
    else none

/-- Value of a character in the standard base64 alphabet. -/
def b64Val (c : Char) : Option Nat :=
  if 'A' ≤ c ∧ c ≤ 'Z' then some (c.toNat - 65)
  else if 'a' ≤ c ∧ c ≤ 'z' then some (c.toNat - 97 + 26)
  else if '0' ≤ c ∧ c ≤ '9' then some (c.toNat - 48 + 52)
  else if c = '+' then some 62
  else if c = '/' then some 63
  else none

/-- Model of `base64::engine::general_purpose::STANDARD.decode`: canonical
padding required (input length a multiple of four, `=` only at the end),
non-zero trailing bits rejected. -/
def b64Decode : List Char → Option (List Nat)
  | [] => some []
  | a :: b :: c :: d :: rest =>
    if d = '=' then
      if rest ≠ [] then none
      else if c = '=' then
        match b64Val a, b64Val b with
        | some va, some vb =>
          if vb % 16 = 0 then some [va * 4 + vb / 16] else none
        | _, _ => none
      else
        match b64Val a, b64Val b, b64Val c with
        | some va, some vb, some vc =>
          if vc % 4 = 0 then
            some [va * 4 + vb / 16, (vb % 16) * 16 + vc / 4]
          else none
        | _, _, _ => none
    else
      match b64Val a, b64Val b, b64Val c, b64Val d with
      | some va, some vb, some vc, some vd =>
        match b64Decode rest with
        | some tail =>
          some ((va * 4 + vb / 16) :: ((vb % 16) * 16 + vc / 4) ::
            ((vc % 4) * 64 + vd) :: tail)
        | none => none
      | _, _, _, _ => none
  | _ => none

/-- Model of `HeaderValue::to_str`: succeeds only when every byte is
visible ASCII (32–126) or horizontal tab. -/
def headerToStr (bytes : List Nat) : Option String :=
  if bytes.all (fun b => (32 ≤ b && b < 127) || b == 9) then
    some (String.mk (bytes.map Char.ofNat))
  else none

/-- First split on a character (Rust `splitn(2, c)` when it yields two
parts); `none` when the character does not occur. -/
def splitFirst (x : Char) : List Char → Option (List Char × List Char)
  | [] => none
  | c :: rest =>
    if c = x then some ([], rest)
    else (splitFirst x rest).map (fun p => (c :: p.1, p.2))

/-- `AuthConfig` from src/utils/auth.rs. -/
structure AuthConfig where
  username : Option String
  password : Option String
deriving DecidableEq, Repr

/-- `AuthConfig::is_auth_required`. -/
def AuthConfig.is_auth_required (c : AuthConfig) : Bool :=
  c.username.isSome && c.password.isSome

/-- The request data consulted by the gate: the resolved client address
(`connection_info().realip_remote_addr()`) and the raw bytes of the
`Authorization` header, when present. -/
structure ServiceRequest where
  realip_remote_addr : Option String
  authorization : Option (List Nat)
deriving DecidableEq, Repr

/-- `is_localhost` from src/utils/auth.rs: a string-prefix test on the
resolved address; no resolvable address means not loopback. -/
def is_localhost (req : ServiceRequest) : Bool :=
  match req.realip_remote_addr with
  | some addr =>
    rustStartsWith addr "127.0.0.1" || rustStartsWith addr "::1" ||
      rustStartsWith addr "localhost"
  | none => false

/-- `AuthConfig::validate_auth_header` from src/utils/auth.rs.  `Ok true`
is allow; every `Err` is an `ErrorUnauthorized` response carrying the
given message. -/
def validate_auth_header (cfg : AuthConfig) (req : ServiceRequest) :
    Except String Bool :=
  if is_localhost req then .ok true
  else if !cfg.is_auth_required then .ok true
  else
    match req.authorization with
    | none => .error "Missing authorization header"
    | some bytes =>
      match headerToStr bytes with
      | none => .error "Invalid authorization header"
      | some auth_str =>
        if !rustStartsWith auth_str "Basic " then
          .error "Invalid authorization type"
        else
          match b64Decode (auth_str.data.drop 6) with
          | none => .error "Invalid authorization header"
          | some decoded =>
            match utf8Decode decoded with
            | none => .error "Invalid authorization header"
            | some credChars =>
              match splitFirst ':' credChars with
              | none => .error "Invalid credentials format"
              | some (u, p) =>
                if String.mk u = cfg.username.getD "" ∧
                    String.mk p = cfg.password.getD "" then
                  .ok true
                else .error "Invalid credentials"

/-- The credential-extraction pipeline applied to a raw header value:
`to_str`, the `Basic ` scheme, base64, UTF-8, then the first-colon split. -/
def decodeBasicCredentials (bytes : List Nat) : Option (String × String) :=
  match headerToStr bytes with
  | none => none
  | some auth_str =>
    if !rustStartsWith auth_str "Basic " then none
    else
      match b64Decode (auth_str.data.drop 6) with
      | none => none
      | some decoded =>
        match utf8Decode decoded with
        | none => none
        | some credChars =>
          match splitFirst ':' credChars with
          | none => none
          | some (u, p) => some (String.mk u, String.mk p)

/-! ## Request ingestion (src/handlers/web.rs, src/main.rs) -/

/-- Hex digit value. -/
def hexVal (b : Nat) : Option Nat :=
  if 48 ≤ b ∧ b ≤ 57 then some (b - 48)
  else if 65 ≤ b ∧ b ≤ 70 then some (b - 65 + 10)
  else if 97 ≤ b ∧ b ≤ 102 then some (b - 97 + 10)
  else none

/-- Percent-decoding of a form component (with `+` as space); invalid
percent sequences pass through literally, as in the url crate. -/
def percentDecode : List Nat → List Nat
  | [] => []
  | 37 :: h1 :: h2 :: rest =>
    match hexVal h1, hexVal h2 with
    | some a, some b => (a * 16 + b) :: percentDecode rest
    | _, _ => 37 :: percentDecode (h1 :: h2 :: rest)
  | 43 :: rest => 32 :: percentDecode rest
  | b :: rest => b :: percentDecode rest

/-- Decoded text of a form component.  The url crate uses lossy UTF-8
conversion; invalid UTF-8 (unreachable in the theorems below) is
approximated by a single replacement character. -/
def formComponent (bytes : List Nat) : String :=
  match utf8Decode (percentDecode bytes) with
  | some cs => String.mk cs
  | none => String.mk ['�']

/-- First split of a list at an element (generic version of `splitFirst`). -/
def splitFirstElem {α : Type} [DecidableEq α] (x : α) : List α → Option (List α × List α)
  | [] => none
  | c :: rest =>
    if c = x then some ([], rest)
    else (splitFirstElem x rest).map (fun p => (c :: p.1, p.2))

/-- The key/value pairs of an `application/x-www-form-urlencoded` body
(empty `&`-separated segments skipped; a segment without `=` is a key with
empty value). -/
def formPairs (body : List Nat) : List (String × String) :=
  ((body.splitOn 38).filter (fun part => part ≠ [])).map
    (fun part =>
      match splitFirstElem 61 part with
      | some kv => (formComponent kv.1, formComponent kv.2)
      | none => (formComponent part, ""))

/-- `FormData` from src/handlers/web.rs. -/
structure FormData where
  title : Option String
  message : Option String
deriving DecidableEq, Repr

/-- Field collection for the serde-derived `FormData` deserializer:
unknown keys are ignored, a repeated known field is an error. -/
def formDataAux : List (String × String) → Option String → Option String →
    Except String FormData
  | [], t, m => .ok { title := t, message := m }
  | (k, v) :: rest, t, m =>
    if k = "title" then
      match t with
      | some _ => .error "duplicate field title"
      | none => formDataAux rest (some v) m
    else if k = "message" then
      match m with
      | some _ => .error "duplicate field message"
      | none => formDataAux rest t (some v)
    else formDataAux rest t m

/-- `serde_urlencoded::from_bytes::<FormData>` (src/handlers/web.rs). -/
def deserialize_form_data (body : List Nat) : Except String FormData :=
  formDataAux (formPairs body) none none

/-- The non-multipart branch of `send_notification` in src/handlers/web.rs:
the body is parsed as URL-encoded form data; absent title/message default
to the empty string; every other canonical field is hard-coded to its
default. -/
def web_send_non_multipart (body : List Nat) : Except String NotificationRequest :=
  match deserialize_form_data body with
  | .error _ => .error "Invalid form data"
  | .ok fd =>
    .ok { title := fd.title.getD "", message := fd.message.getD ""
          notification_type := .basic, image_path := none
          file_paths := none, callback_command := none }

/-- ASCII bytes of a string (used for concrete request bodies). -/
def strBytes (s : String) : List Nat :=
  s.data.map Char.toNat

/-- One part of a `multipart/form-data` payload: the content-disposition
name and filename, and the raw content bytes. -/
structure MultipartPart where
  name : Option String
  filename : Option String
  content : List Nat
deriving DecidableEq, Repr

/-- Model of `PathBuf::extension().and_then(to_str)` on a filename: the
part after the last dot of the last component, none if there is no dot or
the last component starts with its only dot. -/
def pathExtension (p : String) : Option String :=
  let base :=
    match lastSepIdx p.data with
    | some i => p.data.drop (i + 1)
    | none => p.data
  match lastSepIdx base with
  | _ =>
    match (base.reverse.findIdx? (fun c => c = '.')) with
    | none => none
    | some j =>
      let i := base.length - 1 - j
      if i = 0 then none else some (String.mk (base.drop (i + 1)))

/-- The accumulator loop of `handle_multipart` (src/handlers/web.rs).
File writes are modelled as succeeding; the written path is recorded in
the request.  Text parts are UTF-8 decoded, failure is a client error.
Unknown part names are ignored. -/
def handleMultipartAux (temp_dir : String) :
    List MultipartPart → String → String → Option String → List String →
    Option String → Except String NotificationRequest
  | [], title, message, image_path, file_paths, callback =>
    .ok { title := title, message := message, notification_type := .basic
          image_path := image_path
          file_paths := if file_paths = [] then none else some file_paths
          callback_command := callback }
  | part :: rest, title, message, image_path, file_paths, callback =>
    let name := part.name.getD ""
    if name = "title" then
      match utf8Decode part.content with
      | some cs =>
        handleMultipartAux temp_dir rest (String.mk cs) message image_path
          file_paths callback
      | none => .error "Invalid title encoding"
    else if name = "message" then
      match utf8Decode part.content with
      | some cs =>
        handleMultipartAux temp_dir rest title (String.mk cs) image_path
          file_paths callback
      | none => .error "Invalid message encoding"
    else if name = "callback_command" then
      match utf8Decode part.content with
      | some cs =>
        handleMultipartAux temp_dir rest title message image_path file_paths
          (some (String.mk cs))
      | none => .error "Invalid callback_command encoding"
    else if name = "image" then
      match part.filename with
      | some fname =>
        let ext := (pathExtension fname).getD "jpg"
        let fpath := temp_dir ++ "\\" ++ ("image." ++ ext)
        handleMultipartAux temp_dir rest title message (some fpath) file_paths
          callback
      | none =>
        handleMultipartAux temp_dir rest title message image_path file_paths
          callback
    else if name = "files" then
      match part.filename with
      | some fname =>
        handleMultipartAux temp_dir rest title message image_path
          (file_paths ++ [temp_dir ++ "\\" ++ fname]) callback
      | none =>
        handleMultipartAux temp_dir rest title message image_path file_paths
          callback
    else
      handleMultipartAux temp_dir rest title message image_path file_paths
        callback

/-- `handle_multipart` (src/handlers/web.rs): title and message start as
the empty string and keep that value when no part of that name arrives. -/
def handle_multipart (parts : List MultipartPart) (temp_dir : String) :
    Except String NotificationRequest :=
  handleMultipartAux temp_dir parts "" "" none [] none

/-! ## JSON-style deserialization (serde derive) -/

/-- A JSON-like value: the shapes the two request structs can consume. -/
inductive JVal where
  | str (s : String)
  | arr (xs : List String)
  | null
deriving DecidableEq, Repr

/-- First value bound to a key in a JSON object. -/
def jLookup (doc : List (String × JVal)) (key : String) : Option JVal :=
  lookupStore doc key

/-- A required string field of a serde-derived struct. -/
def jReqString (doc : List (String × JVal)) (key : String) : Except String String :=
  match jLookup doc key with
  | some (.str s) => .ok s
  | some _ => .error ("invalid type for field " ++ key)
  | none => .error ("missing field " ++ key)

/-- An `Option<String>` field with `#[serde(default)]`. -/
def jOptString (doc : List (String × JVal)) (key : String) :
    Except String (Option String) :=
  match jLookup doc key with
  | some (.str s) => .ok (some s)
  | some .null => .ok none
  | some _ => .error ("invalid type for field " ++ key)
  | none => .ok none

/-- Serde deserialization of the src/main.rs `NotificationRequest`:
title and message required, the rest `#[serde(default)]`, unknown fields
(such as `image_path`) ignored. -/
def deserialize_main_request (doc : List (String × JVal)) :
    Except String MainNotificationRequest := do
  let title ← jReqString doc "title"
  let message ← jReqString doc "message"
  let xml_payload ← jOptString doc "xml_payload"
  let image_data ← jOptString doc "image_data"
  let callback_command ← jOptString doc "callback_command"
  return { title := title, message := message, xml_payload := xml_payload
           image_data := image_data, callback_command := callback_command }

/-- Serde deserialization of the src/notifications/types.rs
`NotificationRequest`: title and message required, kind defaulting to
`basic`, the rest `#[serde(default)]`, unknown fields (such as
`image_data`) ignored. -/
def deserialize_notification_request (doc : List (String × JVal)) :
    Except String NotificationRequest := do
  let title ← jReqString doc "title"
  let message ← jReqString doc "message"
  let notification_type ←
    match jLookup doc "notification_type" with
    | none => Except.ok NotificationKind.basic
    | some (.str "basic") => Except.ok NotificationKind.basic
    | some _ => Except.error "invalid type for field notification_type"
  let image_path ← jOptString doc "image_path"
  let file_paths ←
    match jLookup doc "file_paths" with
    | none => Except.ok (Option.none (α := List String))
    | some (.arr xs) => Except.ok (some xs)
    | some .null => Except.ok none
    | some _ => Except.error "invalid type for field file_paths"
  let callback_command ← jOptString doc "callback_command"
  return { title := title, message := message
           notification_type := notification_type, image_path := image_path
           file_paths := file_paths, callback_command := callback_command }

/-! ## Effect counting -/

/-- Number of process-launch collaborator calls in an effect list. -/
def countLaunches (l : List Effect) : Nat :=
  (l.filter (fun e => match e with | .launch _ _ => true | _ => false)).length

/-- Number of clipboard-write collaborator calls in an effect list. -/
def countClipboardWrites (l : List Effect) : Nat :=
  (l.filter (fun e => match e with | .clipboard _ => true | _ => false)).length

/-- A concrete uuid stream for counterexamples and witnesses: the draw
index rendered in decimal (distinct draws are distinct strings). -/
def uuidStreamEx : Nat → String := fun n => toString n

/-! ## Helper lemmas -/

lemma replaceChar_cons (x : Char) (xs : List Char) (c : Char) (rep : List Char) :
    replaceChar (x :: xs) c rep =
      (if x = c then rep else [x]) ++ replaceChar xs c rep := by
  simp [replaceChar]

lemma replaceChar_append (a b : List Char) (c : Char) (rep : List Char) :
    replaceChar (a ++ b) c rep = replaceChar a c rep ++ replaceChar b c rep := by
  simp [replaceChar]

/-- The four chained escapes act character by character. -/
lemma escape_chain_eq_flatMap (l : List Char) :
    replaceChar
      (replaceChar (replaceChar (replaceChar l '&' "&amp;".data) '"' "&quot;".data)
        '<' "&lt;".data)
      '>' "&gt;".data = l.flatMap escChar := by
  induction l with
  | nil => rfl
  | cons x xs ih =>
    rw [replaceChar_cons, replaceChar_append, replaceChar_append, replaceChar_append,
      List.flatMap_cons, ih]
    congr 1
    by_cases h1 : x = '&'
    · subst h1; rfl
    · by_cases h2 : x = '"'
      · subst h2; rfl
      · by_cases h3 : x = '<'
        · subst h3; rfl
        · by_cases h4 : x = '>'
          · subst h4; rfl
          · simp [escChar, h1, h2, h3, h4, replaceChar]

lemma escape_xml_data (s : String) :
    (escape_xml s).data = s.data.flatMap escChar :=
  escape_chain_eq_flatMap s.data

lemma okEscaped_escChar_append (c : Char) (t : List Char) :
    okEscaped (escChar c ++ t) = okEscaped t := by
  by_cases h1 : c = '&'
  · subst h1; simp [escChar, okEscaped, List.isPrefixOf]
  · by_cases h2 : c = '"'
    · subst h2; simp [escChar, okEscaped, List.isPrefixOf]
    · by_cases h3 : c = '<'
      · subst h3; simp [escChar, okEscaped, List.isPrefixOf]
      · by_cases h4 : c = '>'
        · subst h4; simp [escChar, okEscaped, List.isPrefixOf]
        · simp [escChar, h1, h2, h3, h4, okEscaped]

/-- Escaped text never scans as containing an unescaped reserved character. -/
lemma okEscaped_escape_xml (s : String) : okEscaped (escape_xml s).data = true := by
  rw [escape_xml_data]
  induction s.data with
  | nil => rfl
  | cons x xs ih => rw [List.flatMap_cons, okEscaped_escChar_append]; exact ih


/-! ## Claim theorems -/

/-- C3: for every user-supplied title and message string, the rendered
markup contains no unescaped reserved character originating from that
text: `escape_xml` output always scans clean (`okEscaped`), the example
texts render as in the spec, and `prepare_xml` interpolates exactly
`escape_xml` of the title and message into the toast template. -/
theorem c3_escaping_confirmed :
    (∀ s : String, okEscaped (escape_xml s).data = true) ∧
    escape_xml "A & B" = "A &amp; B" ∧
    escape_xml "<ok>" = "&lt;ok&gt;" ∧
    (∀ (uuids : Nat → String) (k : Nat) (fs : List String) (n : BasicNotification),
      n.image_path = none →
      (prepare_xml uuids k fs n).result = .ok (toastXml (newTag uuids k) n "")) := by
  refine ⟨okEscaped_escape_xml, by decide, by decide, ?_⟩
  intro uuids k fs n h
  simp [prepare_xml, h]

/-- Witness for C3 at the spec's example texts. -/
theorem c3_escaping_witness :
    (prepare_xml uuidStreamEx 0 []
        ⟨"A & B", "<ok>", none, none, none⟩).result =
      .ok (toastXml (newTag uuidStreamEx 0) ⟨"A & B", "<ok>", none, none, none⟩ "") :=
  c3_escaping_confirmed.2.2.2 uuidStreamEx 0 [] ⟨"A & B", "<ok>", none, none, none⟩ rfl

/-- C9: the loopback bypass is a string-prefix test on the resolved client
address; addresses such as "127.0.0.100" or "::123" are allowed without
any credential check, and a request with no resolvable address is not
loopback. -/
theorem c9_loopback_prefix_confirmed :
    (∀ (addr : String) (auth : Option (List Nat)),
      is_localhost ⟨some addr, auth⟩ =
        (rustStartsWith addr "127.0.0.1" || rustStartsWith addr "::1" ||
          rustStartsWith addr "localhost")) ∧
    (∀ auth : Option (List Nat), is_localhost ⟨none, auth⟩ = false) ∧
    (∀ (cfg : AuthConfig) (auth : Option (List Nat)),
      validate_auth_header cfg ⟨some "127.0.0.100", auth⟩ = .ok true) ∧
    (∀ (cfg : AuthConfig) (auth : Option (List Nat)),
      validate_auth_header cfg ⟨some "::123", auth⟩ = .ok true) := by
  refine ⟨fun addr auth => rfl, fun auth => rfl, ?_, ?_⟩
  · intro cfg auth
    have h : is_localhost ⟨some "127.0.0.100", auth⟩ = true := by
      show (rustStartsWith "127.0.0.100" "127.0.0.1" ||
        rustStartsWith "127.0.0.100" "::1" ||
        rustStartsWith "127.0.0.100" "localhost") = true
      decide
    simp [validate_auth_header, h]
  · intro cfg auth
    have h : is_localhost ⟨some "::123", auth⟩ = true := by
      show (rustStartsWith "::123" "127.0.0.1" || rustStartsWith "::123" "::1" ||
        rustStartsWith "::123" "localhost") = true
      decide
    simp [validate_auth_header, h]

/-- C4 counterexample: the Dismissed handler of src/main.rs, fired with
reason user-cancelled for a stored tag whose metadata carries the callback
command "notepad", performs a process launch — a side effect beyond
logging, contradicting the claim that every Dismissed handler only logs
for every reason. -/
theorem c4_counterexample :
    (main_dismissed_handler [("tag0", ⟨some "notepad", "msg"⟩)] "tag0"
        .userCanceled).any Effect.isSideEffect = true ∧
    (main_dismissed_handler [("tag0", ⟨some "notepad", "msg"⟩)] "tag0"
        .userCanceled).contains (.launch "cmd" ["/C", "notepad"]) = true := by
  constructor <;> decide

/-- C4 amended: the manager-path Dismissed handler
(src/services/manager.rs) performs no side effect for any reason; the
src/main.rs Dismissed handler performs no side effect for timed-out,
application-hidden or other reasons, but for a user-cancelled dismissal it
performs exactly the side effects of the Activated handler (callback
launch, or clipboard write of the stored message). -/
theorem c4_dismissed_amended :
    (∀ reason, (dismissed_handler reason).all (fun e => !e.isSideEffect) = true) ∧
    (∀ (store : List (String × MainNotificationData)) (tag : String)
        (reason : ToastDismissalReason), reason ≠ .userCanceled →
      (main_dismissed_handler store tag reason).all
        (fun e => !e.isSideEffect) = true) ∧
    (∀ (store : List (String × MainNotificationData)) (tag : String),
      (main_dismissed_handler store tag .userCanceled).filter Effect.isSideEffect =
        (main_activated_handler store tag).filter Effect.isSideEffect) := by
  refine ⟨?_, ?_, ?_⟩
  · intro reason; cases reason <;> rfl
  · intro store tag reason h
    cases reason with
    | userCanceled => exact absurd rfl h
    | timedOut => rfl
    | applicationHidden => rfl
    | other => rfl
  · intro store tag
    cases h : lookupStore store tag with
    | none =>
      simp only [main_dismissed_handler, main_activated_handler, h]
      rfl
    | some data =>
      obtain ⟨cb, msg⟩ := data
      simp only [main_dismissed_handler, main_activated_handler, h]
      cases cb <;> rfl

/-- Witness for C4 at a non-user-cancelled reason. -/
theorem c4_dismissed_witness :
    (main_dismissed_handler [] "t" .timedOut).all
      (fun e => !e.isSideEffect) = true :=
  c4_dismissed_amended.2.1 [] "t" .timedOut (by decide)

/-- C7: on an Activated event whose tag is in the store, a present
callback command yields exactly one process launch (of that command, via
`cmd /C`) and no clipboard write; an absent callback command yields
exactly one clipboard write of the stored message and no process
launch. -/
theorem c7_activated_dispatch_confirmed :
    ∀ (store : List (String × NotificationData)) (tag : String)
      (data : NotificationData), lookupStore store tag = some data →
      ((∀ cmd, data.callback_command = some cmd →
          countLaunches (activated_handler store tag) = 1 ∧
          (activated_handler store tag).count (.launch "cmd" ["/C", cmd]) = 1 ∧
          countClipboardWrites (activated_handler store tag) = 0) ∧
        (data.callback_command = none →
          countClipboardWrites (activated_handler store tag) = 1 ∧
          (activated_handler store tag).count (.clipboard data.message) = 1 ∧
          countLaunches (activated_handler store tag) = 0)) := by
  intro store tag data h
  constructor
  · intro cmd hc
    simp only [activated_handler, h, hc]
    cases hdir : directoryToOpen data <;>
      simp [countLaunches, countClipboardWrites, List.count_cons]
  · intro hc
    simp only [activated_handler, h, hc]
    cases hdir : directoryToOpen data <;>
      simp [countLaunches, countClipboardWrites, List.count_cons]

/-- Witness for C7: a stored callback command "notepad" produces one
launch and no clipboard write; a stored entry without a callback produces
one clipboard write and no launch. -/
theorem c7_activated_dispatch_witness :
    (countLaunches (activated_handler [("t", ⟨some "notepad", "m", none, none⟩)] "t") = 1 ∧
      countClipboardWrites (activated_handler [("t", ⟨some "notepad", "m", none, none⟩)] "t") = 0) ∧
    (countClipboardWrites (activated_handler [("u", ⟨none, "m", none, none⟩)] "u") = 1 ∧
      countLaunches (activated_handler [("u", ⟨none, "m", none, none⟩)] "u") = 0) := by
  have h1 := c7_activated_dispatch_confirmed [("t", ⟨some "notepad", "m", none, none⟩)]
    "t" ⟨some "notepad", "m", none, none⟩ (by decide)
  have h2 := c7_activated_dispatch_confirmed [("u", ⟨none, "m", none, none⟩)]
    "u" ⟨none, "m", none, none⟩ (by decide)
  exact ⟨⟨(h1.1 "notepad" rfl).1, (h1.1 "notepad" rfl).2.2⟩,
    ⟨(h2.2 rfl).1, (h2.2 rfl).2.2⟩⟩

/-- If no part is named `title`, the multipart loop leaves the title
accumulator unchanged. -/
lemma handleMultipartAux_title_invariant (dir : String) (parts : List MultipartPart) :
    ∀ (t m : String) (ip : Option String) (fps : List String)
      (cb : Option String) (r : NotificationRequest),
      (∀ p ∈ parts, p.name.getD "" ≠ "title") →
      handleMultipartAux dir parts t m ip fps cb = .ok r → r.title = t := by
  induction parts with
  | nil =>
    intro t m ip fps cb r _ heq
    cases heq; rfl
  | cons p rest ih =>
    intro t m ip fps cb r h heq
    have hname : p.name.getD "" ≠ "title" := h p (List.mem_cons_self p rest)
    have hrest : ∀ q ∈ rest, q.name.getD "" ≠ "title" :=
      fun q hq => h q (List.mem_cons_of_mem p hq)
    simp only [handleMultipartAux] at heq
    repeat' split at heq
    all_goals
      first
        | exact absurd (by assumption : p.name.getD "" = "title") hname
        | cases heq
        | exact ih _ _ _ _ _ _ hrest heq

/-- If no part is named `message`, the multipart loop leaves the message
accumulator unchanged. -/
lemma handleMultipartAux_message_invariant (dir : String) (parts : List MultipartPart) :
    ∀ (t m : String) (ip : Option String) (fps : List String)
      (cb : Option String) (r : NotificationRequest),
      (∀ p ∈ parts, p.name.getD "" ≠ "message") →
      handleMultipartAux dir parts t m ip fps cb = .ok r → r.message = m := by
  induction parts with
  | nil =>
    intro t m ip fps cb r _ heq
    cases heq; rfl
  | cons p rest ih =>
    intro t m ip fps cb r h heq
    have hname : p.name.getD "" ≠ "message" := h p (List.mem_cons_self p rest)
    have hrest : ∀ q ∈ rest, q.name.getD "" ≠ "message" :=
      fun q hq => h q (List.mem_cons_of_mem p hq)
    simp only [handleMultipartAux] at heq
    repeat' split at heq
    all_goals
      first
        | exact absurd (by assumption : p.name.getD "" = "message") hname
        | cases heq
        | exact ih _ _ _ _ _ _ hrest heq

/-- C10: a request omitting title or message is still accepted, the
missing field defaulting to the empty string — in multipart mode the
accumulators start as `""` and are only overwritten by a part of that
name, and in the URL-encoded mode absent keys default via
`unwrap_or_default`. -/
theorem c10_missing_fields_default_confirmed :
    (∀ (parts : List MultipartPart) (dir : String) (r : NotificationRequest),
      (∀ p ∈ parts, p.name.getD "" ≠ "title") →
      handle_multipart parts dir = .ok r → r.title = "") ∧
    (∀ (parts : List MultipartPart) (dir : String) (r : NotificationRequest),
      (∀ p ∈ parts, p.name.getD "" ≠ "message") →
      handle_multipart parts dir = .ok r → r.message = "") ∧
    (∀ (body : List Nat) (fd : FormData),
      deserialize_form_data body = .ok fd →
      web_send_non_multipart body =
        .ok { title := fd.title.getD "", message := fd.message.getD ""
              notification_type := .basic, image_path := none
              file_paths := none, callback_command := none }) := by
  refine ⟨?_, ?_, ?_⟩
  · intro parts dir r h heq
    exact handleMultipartAux_title_invariant dir parts "" "" none [] none r h heq
  · intro parts dir r h heq
    exact handleMultipartAux_message_invariant dir parts "" "" none [] none r h heq
  · intro body fd h
    simp [web_send_non_multipart, h]

/-- Witness for C10: a multipart payload with only a message part yields
an empty title; one with only a title part yields an empty message; a
URL-encoded body with only a message key yields an empty title. -/
theorem c10_missing_fields_default_witness :
    ({ title := "", message := "hi", notification_type := .basic
       image_path := none, file_paths := none
       callback_command := none : NotificationRequest }.title = "") ∧
    ({ title := "t", message := "", notification_type := .basic
       image_path := none, file_paths := none
       callback_command := none : NotificationRequest }.message = "") ∧
    web_send_non_multipart (strBytes "message=hi") =
      .ok { title := (none : Option String).getD ""
            message := (some "hi" : Option String).getD ""
            notification_type := .basic, image_path := none
            file_paths := none, callback_command := none } :=
  ⟨c10_missing_fields_default_confirmed.1
      [{ name := some "message", filename := none, content := strBytes "hi" }] "d"
      _ (by decide) (by rfl),
    c10_missing_fields_default_confirmed.2.1
      [{ name := some "title", filename := none, content := strBytes "t" }] "d"
      _ (by decide) (by rfl),
    c10_missing_fields_default_confirmed.2.2 (strBytes "message=hi")
      { title := none, message := some "hi" } (by rfl)⟩

/-- The gate allows exactly when the client is loopback, or no credential
pair is configured, or the header pipeline yields the configured pair. -/
lemma validate_ok_iff (cfg : AuthConfig) (req : ServiceRequest) :
    validate_auth_header cfg req = .ok true ↔
      (is_localhost req = true ∨ cfg.is_auth_required = false ∨
        ∃ hdr u p, req.authorization = some hdr ∧
          decodeBasicCredentials hdr = some (u, p) ∧
          cfg.username = some u ∧ cfg.password = some p) := by
  cases hl : is_localhost req with
  | true => simp [validate_auth_header, hl]
  | false =>
    cases hreq : cfg.is_auth_required with
    | false => simp [validate_auth_header, hl, hreq]
    | true =>
      cases ha : req.authorization with
      | none => simp [validate_auth_header, hl, hreq, ha]
      | some hdr =>
        cases hs : headerToStr hdr with
        | none => simp [validate_auth_header, decodeBasicCredentials, hl, hreq, ha, hs]
        | some astr =>
          cases hB : rustStartsWith astr "Basic " with
          | false =>
            simp [validate_auth_header, decodeBasicCredentials, hl, hreq, ha, hs, hB]
          | true =>
            cases hb64 : b64Decode (astr.data.drop 6) with
            | none =>
              simp [validate_auth_header, decodeBasicCredentials, hl, hreq, ha, hs,
                hB, hb64]
            | some dec =>
              cases hu8 : utf8Decode dec with
              | none =>
                simp [validate_auth_header, decodeBasicCredentials, hl, hreq, ha,
                  hs, hB, hb64, hu8]
              | some cred =>
                cases hsp : splitFirst ':' cred with
                | none =>
                  simp [validate_auth_header, decodeBasicCredentials, hl, hreq, ha,
                    hs, hB, hb64, hu8, hsp]
                | some up =>
                  obtain ⟨u, p⟩ := up
                  cases hcu : cfg.username with
                  | none => simp [AuthConfig.is_auth_required, hcu] at hreq
                  | some u0 =>
                    cases hcp : cfg.password with
                    | none => simp [AuthConfig.is_auth_required, hcp] at hreq
                    | some p0 =>
                      have hdec : decodeBasicCredentials hdr =
                          some (String.mk u, String.mk p) := by
                        simp [decodeBasicCredentials, hs, hB, hb64, hu8, hsp]
                      have hval : validate_auth_header cfg req =
                          (if String.mk u = u0 ∧ String.mk p = p0 then
                            Except.ok true
                          else Except.error "Invalid credentials") := by
                        simp [validate_auth_header, hl, hreq, ha, hs, hB, hb64,
                          hu8, hsp, hcu, hcp]
                      rw [hval]
                      constructor
                      · intro hL
                        split at hL
                        · rename_i hm
                          exact Or.inr (Or.inr ⟨hdr, String.mk u, String.mk p,
                            rfl, hdec, congrArg some hm.1.symm,
                            congrArg some hm.2.symm⟩)
                        · cases hL
                      · intro hR
                        rcases hR with h | h | ⟨hdr2, u2, p2, hh, hd, hu2, hp2⟩
                        · cases h
                        · cases h
                        · injection hh with hh2
                          subst hh2
                          rw [hdec] at hd
                          injection hd with hd2
                          injection hu2 with hu3
                          injection hp2 with hp3
                          rw [if_pos
                            ⟨(congrArg Prod.fst hd2).trans hu3.symm,
                              (congrArg Prod.snd hd2).trans hp3.symm⟩]

/-- The gate never returns an `Ok(false)`. -/
lemma validate_ok_imp_true (cfg : AuthConfig) (req : ServiceRequest) (b : Bool) :
    validate_auth_header cfg req = .ok b → b = true := by
  unfold validate_auth_header
  intro h
  repeat' split at h
  all_goals
    first
      | (injection h with h2; exact h2.symm)
      | cases h

/-- C6: the gate allows exactly when the resolved client address is
loopback (even with credentials configured), or no username/password pair
is configured, or the Basic authorization header decodes to a `user:pass`
pair matching the configured credentials exactly; in every other case
(missing header, wrong scheme, undecodable payload, malformed structure,
mismatched credentials) it denies with an unauthorized error, and it never
returns an allow value other than `true`. -/
theorem c6_auth_gate_confirmed (cfg : AuthConfig) (req : ServiceRequest) :
    (validate_auth_header cfg req = .ok true ↔
      (is_localhost req = true ∨ cfg.is_auth_required = false ∨
        ∃ hdr u p, req.authorization = some hdr ∧
          decodeBasicCredentials hdr = some (u, p) ∧
          cfg.username = some u ∧ cfg.password = some p)) ∧
    (∀ b, validate_auth_header cfg req = .ok b → b = true) :=
  ⟨validate_ok_iff cfg req, fun b => validate_ok_imp_true cfg req b⟩

/-- Witness for C6: a non-loopback request with configured credentials and
a matching `Basic` header (base64 of `admin:pw`) is allowed. -/
theorem c6_auth_gate_witness :
    validate_auth_header { username := some "admin", password := some "pw" }
      { realip_remote_addr := some "203.0.113.9"
        authorization := some (strBytes "Basic YWRtaW46cHc=") } = .ok true ∧
    (true : Bool) = true := by
  have hall := (c6_auth_gate_confirmed
    { username := some "admin", password := some "pw" }
    { realip_remote_addr := some "203.0.113.9"
      authorization := some (strBytes "Basic YWRtaW46cHc=") }).1.mpr
    (Or.inr (Or.inr ⟨strBytes "Basic YWRtaW46cHc=", "admin", "pw", rfl,
      by rfl, rfl, rfl⟩))
  exact ⟨hall, (c6_auth_gate_confirmed
    { username := some "admin", password := some "pw" }
    { realip_remote_addr := some "203.0.113.9"
      authorization := some (strBytes "Basic YWRtaW46cHc=") }).2 true hall⟩

/-- Shape of a successful manager-path send: counter advanced by three,
three tags generated, the third one set on the toast, inserted, and used
for handler registration, with the `Show` call last. -/
lemma send_typed_ok_shape (uuids : Nat → String) (k : Nat) (fs : List String)
    (store0 : List (String × NotificationData)) (np : Bool)
    (n : BasicNotification) :
    (send_typed_notification uuids k fs store0 np n).result = .ok () →
    ∃ xmlImg : String,
      send_typed_notification uuids k fs store0 np n =
        { result := .ok (), counter := k + 3
          trace := [.genTag (newTag uuids k), .genTag (newTag uuids (k + 1)),
            .setTagCall (newTag uuids (k + 1)), .genTag (newTag uuids (k + 2)),
            .setTagCall (newTag uuids (k + 2)), .insert (newTag uuids (k + 2)),
            .registerHandlers (newTag uuids (k + 2)), .showCall]
          store := (newTag uuids (k + 2), get_callback_data n) :: store0
          toast := some { xml := toastXml (newTag uuids k) n xmlImg
                          tag := newTag uuids (k + 2) }
          handlersTag := some (newTag uuids (k + 2)) } := by
  intro h
  cases hip : n.image_path with
  | none =>
    cases np with
    | false =>
      exfalso
      simp [send_typed_notification, prepare_xml, hip] at h
    | true =>
      exact ⟨"", by simp [send_typed_notification, prepare_xml,
        create_notification, hip]⟩
  | some ip =>
    cases hfs : fs.contains ip with
    | false =>
      exfalso
      have hm : ¬ ip ∈ fs := by simpa using hfs
      simp [send_typed_notification, prepare_xml, hip, hm] at h
    | true =>
      have hm : ip ∈ fs := by simpa using hfs
      cases np with
      | false =>
        exfalso
        simp [send_typed_notification, prepare_xml, create_notification,
          hip, hm] at h
      | true =>
        exact ⟨heroImageXml ip, by simp [send_typed_notification, prepare_xml,
          create_notification, hip, hm]⟩

/-- Two distinct uuid draws give two distinct tags. -/
lemma newTag_ne (uuids : Nat → String) (i j : Nat) (h : uuids i ≠ uuids j) :
    newTag uuids i ≠ newTag uuids j := by
  intro he
  apply h
  have hd := congrArg String.data he
  simp only [newTag, String.data_append] at hd
  exact String.ext (List.append_cancel_left hd)

/-- C1 counterexample: in a concrete successful manager-path send (uuid
draws "0", "1", "2"), the tag substituted for the `{tag}` placeholder of
the rendered markup is `notification_0`, while the key under which the
callback metadata is inserted into the store is `notification_2` — the
embedded tag is not the insertion key. -/
theorem c1_tag_correlation_counterexample :
    (send_typed_notification uuidStreamEx 0 [] [] true
        ⟨"t", "m", none, none, none⟩).toast =
      some { xml := toastXml (newTag uuidStreamEx 0) ⟨"t", "m", none, none, none⟩ ""
             tag := newTag uuidStreamEx 2 } ∧
    (send_typed_notification uuidStreamEx 0 [] [] true
        ⟨"t", "m", none, none, none⟩).store =
      [(newTag uuidStreamEx 2, get_callback_data ⟨"t", "m", none, none, none⟩)] ∧
    newTag uuidStreamEx 0 ≠ newTag uuidStreamEx 2 :=
  ⟨rfl, rfl, by decide⟩

/-- C1 amended: the tag embedded in the rendered markup is the first of
three independently generated tags and (for distinct uuid draws) differs
from the store key; correlation still works because the handlers are
registered with the store key itself: the metadata is inserted under the
third tag, the toast carries it, the handlers capture it, and looking it
up finds the inserted metadata. -/
theorem c1_tag_correlation_amended :
    ∀ (uuids : Nat → String) (k : Nat) (fs : List String)
      (store0 : List (String × NotificationData)) (np : Bool)
      (n : BasicNotification),
      uuids k ≠ uuids (k + 2) →
      (send_typed_notification uuids k fs store0 np n).result = .ok () →
      ∃ xmlImg,
        (send_typed_notification uuids k fs store0 np n).toast =
          some { xml := toastXml (newTag uuids k) n xmlImg
                 tag := newTag uuids (k + 2) } ∧
        (send_typed_notification uuids k fs store0 np n).store =
          (newTag uuids (k + 2), get_callback_data n) :: store0 ∧
        newTag uuids k ≠ newTag uuids (k + 2) ∧
        (send_typed_notification uuids k fs store0 np n).handlersTag =
          some (newTag uuids (k + 2)) ∧
        lookupStore (send_typed_notification uuids k fs store0 np n).store
          (newTag uuids (k + 2)) = some (get_callback_data n) := by
  intro uuids k fs store0 np n hne h
  obtain ⟨xmlImg, hshape⟩ := send_typed_ok_shape uuids k fs store0 np n h
  refine ⟨xmlImg, ?_, ?_, newTag_ne uuids k (k + 2) hne, ?_, ?_⟩ <;>
    rw [hshape]
  simp [lookupStore]

/-- Witness for C1 at the uuid stream "7", "8", "9". -/
theorem c1_tag_correlation_witness :
    ∃ xmlImg,
      (send_typed_notification uuidStreamEx 7 [] [] true
          ⟨"wt", "wm", none, none, none⟩).toast =
        some { xml := toastXml (newTag uuidStreamEx 7)
                 ⟨"wt", "wm", none, none, none⟩ xmlImg
               tag := newTag uuidStreamEx (7 + 2) } ∧
      (send_typed_notification uuidStreamEx 7 [] [] true
          ⟨"wt", "wm", none, none, none⟩).store =
        [(newTag uuidStreamEx (7 + 2),
          get_callback_data ⟨"wt", "wm", none, none, none⟩)] ∧
      newTag uuidStreamEx 7 ≠ newTag uuidStreamEx (7 + 2) ∧
      (send_typed_notification uuidStreamEx 7 [] [] true
          ⟨"wt", "wm", none, none, none⟩).handlersTag =
        some (newTag uuidStreamEx (7 + 2)) ∧
      lookupStore (send_typed_notification uuidStreamEx 7 [] [] true
          ⟨"wt", "wm", none, none, none⟩).store (newTag uuidStreamEx (7 + 2)) =
        some (get_callback_data ⟨"wt", "wm", none, none, none⟩) :=
  c1_tag_correlation_amended uuidStreamEx 7 [] [] true
    ⟨"wt", "wm", none, none, none⟩ (by decide) (by rfl)

/-- C2 counterexample: a concrete successful manager-path send generates
three correlation tags, not exactly one. -/
theorem c2_tag_count_counterexample :
    (genTags (send_typed_notification uuidStreamEx 0 [] [] true
        ⟨"t2", "m2", none, none, none⟩).trace).length = 3 ∧
    (genTags (send_typed_notification uuidStreamEx 0 [] [] true
        ⟨"t2", "m2", none, none, none⟩).trace).length ≠ 1 :=
  ⟨rfl, by decide⟩

/-- C2 amended: every accepted manager-path request generates exactly
three tags (markup tag, `create_notification` tag, store key); the third
one is inserted into the store, and the handlers registered with it,
strictly before the `Show` call is issued. -/
theorem c2_insert_before_show_amended :
    ∀ (uuids : Nat → String) (k : Nat) (fs : List String)
      (store0 : List (String × NotificationData)) (np : Bool)
      (n : BasicNotification),
      (send_typed_notification uuids k fs store0 np n).result = .ok () →
      genTags (send_typed_notification uuids k fs store0 np n).trace =
        [newTag uuids k, newTag uuids (k + 1), newTag uuids (k + 2)] ∧
      ∃ pre,
        (send_typed_notification uuids k fs store0 np n).trace =
          pre ++ [.insert (newTag uuids (k + 2)),
            .registerHandlers (newTag uuids (k + 2)), .showCall] ∧
        (send_typed_notification uuids k fs store0 np n).store =
          (newTag uuids (k + 2), get_callback_data n) :: store0 := by
  intro uuids k fs store0 np n h
  obtain ⟨xmlImg, hshape⟩ := send_typed_ok_shape uuids k fs store0 np n h
  rw [hshape]
  exact ⟨rfl, ⟨[.genTag (newTag uuids k), .genTag (newTag uuids (k + 1)),
    .setTagCall (newTag uuids (k + 1)), .genTag (newTag uuids (k + 2)),
    .setTagCall (newTag uuids (k + 2))], rfl, rfl⟩⟩

/-- Witness for C2 at the uuid stream "3", "4", "5". -/
theorem c2_insert_before_show_witness :
    genTags (send_typed_notification uuidStreamEx 3 [] [] true
        ⟨"wt2", "wm2", none, none, none⟩).trace =
      [newTag uuidStreamEx 3, newTag uuidStreamEx (3 + 1),
        newTag uuidStreamEx (3 + 2)] ∧
    ∃ pre,
      (send_typed_notification uuidStreamEx 3 [] [] true
          ⟨"wt2", "wm2", none, none, none⟩).trace =
        pre ++ [.insert (newTag uuidStreamEx (3 + 2)),
          .registerHandlers (newTag uuidStreamEx (3 + 2)), .showCall] ∧
      (send_typed_notification uuidStreamEx 3 [] [] true
          ⟨"wt2", "wm2", none, none, none⟩).store =
        [(newTag uuidStreamEx (3 + 2),
          get_callback_data ⟨"wt2", "wm2", none, none, none⟩)] :=
  c2_insert_before_show_amended uuidStreamEx 3 [] [] true
    ⟨"wt2", "wm2", none, none, none⟩ (by rfl)

/-- C8 counterexample: a non-multipart body carrying
`title=a&message=b&callback_command=notepad` is parsed as URL-encoded form
data and the resulting request drops the callback command entirely (and
the image, attachment and kind fields are hard-coded defaults) — the body
is not mapped onto every canonical field. -/
theorem c8_non_multipart_counterexample :
    web_send_non_multipart
        (strBytes "title=a&message=b&callback_command=notepad") =
      .ok { title := "a", message := "b", notification_type := .basic
            image_path := none, file_paths := none
            callback_command := none } ∧
    (none : Option String) ≠ some "notepad" :=
  ⟨rfl, by decide⟩

/-- C8 amended: when the content type is not multipart/form-data, the
src/handlers/web.rs handler parses the body as URL-encoded form data with
only optional `title` and `message` keys; every other canonical field of
the produced request (kind, image reference, attachment paths, callback
command) is set to its default, never read from the body. -/
theorem c8_non_multipart_amended :
    ∀ (body : List Nat) (r : NotificationRequest),
      web_send_non_multipart body = .ok r →
      r.notification_type = .basic ∧ r.image_path = none ∧
      r.file_paths = none ∧ r.callback_command = none ∧
      ∃ fd, deserialize_form_data body = .ok fd ∧
        r.title = fd.title.getD "" ∧ r.message = fd.message.getD "" := by
  intro body r h
  unfold web_send_non_multipart at h
  cases hd : deserialize_form_data body with
  | error e => rw [hd] at h; cases h
  | ok fd =>
    rw [hd] at h
    injection h with h2
    subst h2
    exact ⟨rfl, rfl, rfl, rfl, fd, rfl, rfl, rfl⟩

/-- Witness for C8 on the body `title=x`. -/
theorem c8_non_multipart_witness :
    NotificationKind.basic = NotificationKind.basic ∧
    (none : Option String) = none ∧
    (none : Option (List String)) = none ∧
    (none : Option String) = none ∧
    ∃ fd, deserialize_form_data (strBytes "title=x") = .ok fd ∧
      ("x" : String) = fd.title.getD "" ∧ ("" : String) = fd.message.getD "" :=
  c8_non_multipart_amended (strBytes "title=x")
    { title := "x", message := "", notification_type := .basic
      image_path := none, file_paths := none, callback_command := none }
    (by rfl)

/-- C5 counterexample: a document carrying both an `image_path` and an
`image_data` key is not rejected: the src/main.rs deserializer simply
ignores the unknown `image_path` key, accepts the request, and the send
path renders and shows it successfully — no configuration error exists. -/
theorem c5_both_image_fields_counterexample :
    deserialize_main_request
        [("title", .str "t"), ("message", .str "m"),
          ("image_path", .str "C:/a.png"), ("image_data", .str "AAAA")] =
      .ok { title := "t", message := "m", xml_payload := none
            image_data := some "AAAA", callback_command := none } ∧
    (main_send_notification uuidStreamEx 0 [] true true
        { title := "t", message := "m", xml_payload := none
          image_data := some "AAAA", callback_command := none }).result =
      .ok () :=
  ⟨rfl, rfl⟩

/-- C5 amended: no request type can carry both image fields — each
deserializer keeps only the image field its struct declares and silently
ignores the other, so a document supplying both is accepted by both paths
rather than rejected.  The src/main.rs path embeds the inline image data
into the markup and shows it with no file-existence check (its send path
consults no filesystem), while the manager path keeps only the file-path
reference (whose existence `prepare_xml` checks). -/
theorem c5_both_image_fields_amended :
    ∀ (uuids : Nat → String) (k : Nat) (t m ip d : String),
      deserialize_main_request
          [("title", .str t), ("message", .str m),
            ("image_path", .str ip), ("image_data", .str d)] =
        .ok { title := t, message := m, xml_payload := none
              image_data := some d, callback_command := none } ∧
      (main_send_notification uuids k [] true true
          { title := t, message := m, xml_payload := none
            image_data := some d, callback_command := none }).result =
        .ok () ∧
      (main_send_notification uuids k [] true true
          { title := t, message := m, xml_payload := none
            image_data := some d, callback_command := none }).shownXml =
        some (main_toast_xml (newTag uuids k)
          { title := t, message := m, xml_payload := none
            image_data := some d, callback_command := none }) ∧
      deserialize_notification_request
          [("title", .str t), ("message", .str m),
            ("image_path", .str ip), ("image_data", .str d)] =
        .ok { title := t, message := m, notification_type := .basic
              image_path := some ip, file_paths := none
              callback_command := none } :=
  fun _ _ _ _ _ _ => ⟨rfl, rfl, rfl, rfl⟩
